import Mathlib

/-!
Shallow embedding of `src/main.rs` of the wgpu-test repository: a minimal
graphics sample that opens an SDL2 window, uploads a colored triangle,
builds one render pipeline, and runs a frame loop (drain events, acquire a
swap-chain frame, record two render passes, submit) until a window-close
event arrives.

Floating-point literals in the source (vertex positions, colors, clear
color) are all exactly representable; they are embedded as rationals.
Byte sizes (`std::mem::size_of`) are embedded as the exact natural numbers
Rust computes for the `repr(C)` types involved.
-/

namespace WgpuTest

/-! ## Compile-time configuration (src/main.rs lines 16-17, 31, 60-69) -/

/-- `const WIDTH: usize = 640;` -/
def WIDTH : Nat := 640

/-- `const HEIGHT: usize = 480;` -/
def HEIGHT : Nat := 480

/-- The title passed to `video.window("wgpu", WIDTH as _, HEIGHT as _)`. -/
def windowTitle : String := "wgpu"

/-- Texture formats appearing in the wgpu API surface used by the program. -/
inductive TextureFmt where
  | bgra8UnormSrgb
  | rgba8Unorm
deriving DecidableEq

/-- Present modes of the wgpu API surface used by the program. -/
inductive PresentationMode where
  | fifo
  | mailbox
  | immediate
deriving DecidableEq

/-- The swap-chain descriptor passed to `device.create_swap_chain`. -/
structure SwapChainConfig where
  format : TextureFmt
  width : Nat
  height : Nat
  presentMode : PresentationMode
deriving DecidableEq

/-- `SwapChainDescriptor { format: Bgra8UnormSrgb, width: WIDTH, height: HEIGHT,
present_mode: Fifo, .. }` (lines 62-68). -/
def swapChainConfig : SwapChainConfig :=
  { format := TextureFmt.bgra8UnormSrgb
    width := WIDTH
    height := HEIGHT
    presentMode := PresentationMode.fifo }

/-- The color target format in the pipeline's `color_states` (line 126). -/
def pipelineColorFormat : TextureFmt := TextureFmt.bgra8UnormSrgb

/-! ## Geometry data (lines 72-94) -/

/-- The `repr(C)` vertex: `_pos: [f32; 2], _color: [f32; 3]`. -/
structure Vertex where
  pos : ℚ × ℚ
  color : ℚ × ℚ × ℚ
deriving DecidableEq

/-- The three vertices written into the vertex buffer (lines 82-86). -/
def vertexData : List Vertex :=
  [ { pos := (0, 0), color := (1, 0, 0) }
  , { pos := (1, 0), color := (0, 1, 0) }
  , { pos := (0, 1), color := (0, 0, 1) } ]

/-- The contents of the index buffer: `&[0u16, 1, 2]` (line 92). -/
def indexData : List Nat := [0, 1, 2]

/-- Buffer usage flags; the program passes exactly one flag per buffer. -/
inductive BufferUsageFlag where
  | vertex
  | index
  | copyDst
  | copySrc
  | uniform
deriving DecidableEq

/-- `usage: BufferUsage::VERTEX` of the vertex buffer (line 87). -/
def vertexBufferUsage : List BufferUsageFlag := [BufferUsageFlag.vertex]

/-- `usage: BufferUsage::INDEX` of the index buffer (line 93). -/
def indexBufferUsage : List BufferUsageFlag := [BufferUsageFlag.index]

/-! ## Vertex buffer layout of the pipeline (lines 132-139) -/

/-- The two vertex attribute formats used by `vertex_attr_array!`. -/
inductive VertexFormat where
  | float2
  | float3
deriving DecidableEq

/-- Byte size of an attribute format (two resp. three 4-byte floats). -/
def VertexFormat.byteSize : VertexFormat → Nat
  | VertexFormat.float2 => 8
  | VertexFormat.float3 => 12

/-- One entry of the `attributes` array: shader location, byte offset, format. -/
structure VertexAttribute where
  shaderLocation : Nat
  offset : Nat
  format : VertexFormat
deriving DecidableEq

/-- A wgpu `VertexBufferDescriptor`: stride in bytes plus attribute list
(step mode is `InputStepMode::Vertex`). -/
structure VertexBufferLayout where
  stride : Nat
  attributes : List VertexAttribute
deriving DecidableEq

/-- `std::mem::size_of::<f32>()`. -/
def sizeOfF32 : Nat := 4

/-- `std::mem::size_of::<[f32; 2]>()` — the value the source uses as stride
(line 135). -/
def sizeOfPosArray : Nat := 2 * sizeOfF32

/-- `std::mem::size_of::<Vertex>()` for the `repr(C)` vertex:
2 position floats plus 3 color floats, no padding. -/
def sizeOfVertex : Nat := 2 * sizeOfF32 + 3 * sizeOfF32

/-- The single `VertexBufferDescriptor` of the pipeline (lines 134-138):
stride is `size_of::<[f32; 2]>()`, attributes are
`vertex_attr_array![0 => Float2, 1 => Float3]`, i.e. `Float2` at offset 0
and `Float3` at offset `size_of::<Float2>() = 8`. -/
def vertexBufferLayout : VertexBufferLayout :=
  { stride := sizeOfPosArray
    attributes :=
      [ { shaderLocation := 0, offset := 0, format := VertexFormat.float2 }
      , { shaderLocation := 1, offset := 8, format := VertexFormat.float3 } ] }

/-- Index formats of the wgpu API. -/
inductive IndexFmt where
  | uint16
  | uint32
deriving DecidableEq

/-- `index_format: IndexFormat::Uint16` of the pipeline (line 133). -/
def pipelineIndexFormat : IndexFmt := IndexFmt.uint16

/-! ## Recorded render passes and commands (lines 178-228) -/

/-- An RGBA color with rational channels (`wgpu::Color`). -/
structure Color where
  r : ℚ
  g : ℚ
  b : ℚ
  a : ℚ
deriving DecidableEq

/-- The clear color of pass A: `Color { r: 0.5, g: 0.5, b: 0.5, a: 1.0 }`
(lines 185-190). -/
def clearColor : Color := { r := 1/2, g := 1/2, b := 1/2, a := 1 }

/-- Load operation of a render pass color attachment. -/
inductive PassLoadOp where
  | clear (color : Color)
  | load
deriving DecidableEq

/-- The color attachment a pass renders into. The program only ever uses the
acquired frame's output view (`&frame.output.view`). -/
inductive Attachment where
  | frameOutputView
deriving DecidableEq

/-- Commands recorded inside a render pass. `draw` carries the two half-open
ranges of `RenderPass::draw(vertices, instances)`; `drawIndexed` mirrors
`RenderPass::draw_indexed(indices, base_vertex, instances)`, which the
program never calls. `renderImgui` is the composite call
`imgui_wgpu.render(ui.render(), ...)`. -/
inductive PassCmd where
  | setPipeline
  | setVertexBuffer (slot : Nat)
  | setIndexBuffer
  | draw (vertexStart vertexEnd instanceStart instanceEnd : Nat)
  | drawIndexed (indexStart indexEnd : Nat) (baseVertex : Int)
      (instanceStart instanceEnd : Nat)
  | renderImgui
deriving DecidableEq

/-- Whether a command is a draw call of either kind. -/
def PassCmd.isDrawCall : PassCmd → Bool
  | PassCmd.draw _ _ _ _ => true
  | PassCmd.drawIndexed _ _ _ _ _ => true
  | _ => false

/-- Whether a command is an indexed draw call. -/
def PassCmd.isIndexedDraw : PassCmd → Bool
  | PassCmd.drawIndexed _ _ _ _ _ => true
  | _ => false

/-- One recorded render pass: its color attachment, the load/store ops of the
attachment, and the commands recorded into it. -/
structure RenderPass where
  attachment : Attachment
  loadOp : PassLoadOp
  store : Bool
  cmds : List PassCmd
deriving DecidableEq

/-- A finished command buffer: the recorded passes in order, plus any
encoder-level buffer-write (copy) commands — the program records none. -/
structure CommandBuffer where
  passes : List RenderPass
  bufferWrites : List BufferUsageFlag
deriving DecidableEq

/-- Pass A (lines 180-200): clear the frame view to `clearColor`, store,
bind the pipeline, the vertex buffer at slot 0 and the index buffer, then
`pass.draw(0..3, 0..1)`. -/
def passA : RenderPass :=
  { attachment := Attachment.frameOutputView
    loadOp := PassLoadOp.clear clearColor
    store := true
    cmds :=
      [ PassCmd.setPipeline
      , PassCmd.setVertexBuffer 0
      , PassCmd.setIndexBuffer
      , PassCmd.draw 0 3 0 1 ] }

/-- Pass B (lines 202-226): load (not clear) the same frame view, store, and
composite the imgui draw data. -/
def passB : RenderPass :=
  { attachment := Attachment.frameOutputView
    loadOp := PassLoadOp.load
    store := true
    cmds := [PassCmd.renderImgui] }

/-- The command buffer recorded and submitted on every rendering iteration:
the two passes in order, no encoder-level buffer writes. -/
def frameCommands : CommandBuffer :=
  { passes := [passA, passB], bufferWrites := [] }

/-! ## Input events and the drain loop (lines 158-170) -/

/-- An SDL2 event as the `match` in the source distinguishes them: a window
close event, or anything else, where `ignoredByUi` records whether
`imgui_sdl2.ignore_event` returns true for it. -/
inductive SdlEvent where
  | windowClose
  | other (ignoredByUi : Bool)
deriving DecidableEq

/-- Result of draining one batch of pending events: whether a close event was
hit (then the source does `break 'main`), the events forwarded to
`imgui_sdl2.handle_event` in order, and how many events were examined. -/
structure DrainResult where
  closed : Bool
  forwarded : List SdlEvent
  examined : Nat
deriving DecidableEq

/-- The `for event in events.poll_iter()` loop: a close event breaks out
immediately (events after it are not examined); any other event is forwarded
to the UI handler unless `ignore_event` says to skip it. -/
def drainEvents : List SdlEvent → DrainResult
  | [] => { closed := false, forwarded := [], examined := 0 }
  | SdlEvent.windowClose :: _ => { closed := true, forwarded := [], examined := 1 }
  | SdlEvent.other ig :: rest =>
      { closed := (drainEvents rest).closed
        forwarded :=
          if ig then (drainEvents rest).forwarded
          else SdlEvent.other ig :: (drainEvents rest).forwarded
        examined := (drainEvents rest).examined + 1 }

/-! ## The frame loop (lines 158-231) -/

/-- Outcome of one iteration of `'main: loop`:
`closed` — a close event was drained, the loop breaks before acquiring a
frame; `fatalAcquire` — `swap_chain.get_current_frame()` failed and the
`expect` panics; `rendered cb` — a frame was acquired, `cb` was recorded
and submitted. -/
inductive StepResult where
  | closed
  | fatalAcquire
  | rendered (cb : CommandBuffer)
deriving DecidableEq

/-- Whether the iteration acquired a presentable frame. -/
def StepResult.acquiresFrame : StepResult → Bool
  | StepResult.rendered _ => true
  | _ => false

/-- The command buffers submitted by the iteration (`queue.submit`). -/
def StepResult.submissions : StepResult → List CommandBuffer
  | StepResult.rendered cb => [cb]
  | _ => []

/-- One iteration of the frame loop, given the batch of pending events and
whether the swap chain can deliver a frame: drain events (close breaks the
loop), then acquire the frame (failure is fatal), then record and submit
`frameCommands`. -/
def step (batch : List SdlEvent) (frameAvailable : Bool) : StepResult :=
  if (drainEvents batch).closed then StepResult.closed
  else if frameAvailable then StepResult.rendered frameCommands
  else StepResult.fatalAcquire

/-- Run the frame loop from iteration `i` for at most `fuel` iterations,
where `batches j` is the batch of events pending at iteration `j` and
`avail j` tells whether frame acquisition succeeds there. The trace ends at
the first `closed` (normal termination) or `fatalAcquire` (panic). -/
def runLoop (batches : Nat → List SdlEvent) (avail : Nat → Bool) :
    Nat → Nat → List StepResult
  | 0, _ => []
  | fuel + 1, i =>
    match step (batches i) (avail i) with
    | StepResult.closed => [StepResult.closed]
    | StepResult.fatalAcquire => [StepResult.fatalAcquire]
    | StepResult.rendered cb =>
        StepResult.rendered cb :: runLoop batches avail fuel (i + 1)

/-! ## Resource constructions (for the once-per-process claims) -/

/-- GPU/UI resources the program constructs. -/
inductive Resource where
  | surface
  | swapChain
  | vertexBuffer
  | indexBuffer
  | vertShaderModule
  | fragShaderModule
  | pipelineLayout
  | renderPipeline
  | imguiContext
  | imguiRenderer
  | frame
  | commandEncoder
deriving DecidableEq

/-- The resources constructed during startup, in source order
(lines 38, 60, 80, 90, 97, 98, 100, 105, 146, 148), before the loop. -/
def setupConstructions : List Resource :=
  [ Resource.surface, Resource.swapChain, Resource.vertexBuffer
  , Resource.indexBuffer, Resource.vertShaderModule, Resource.fragShaderModule
  , Resource.pipelineLayout, Resource.renderPipeline, Resource.imguiContext
  , Resource.imguiRenderer ]

/-- The resources constructed by one loop iteration: a rendering iteration
creates the acquired frame (line 172) and the command encoder (line 178);
a terminating or failing iteration creates none. -/
def iterConstructions : StepResult → List Resource
  | StepResult.rendered _ => [Resource.frame, Resource.commandEncoder]
  | _ => []

/-- All constructions over a whole process execution: the startup ones
followed by the per-iteration ones of the given loop trace. -/
def processConstructions (trace : List StepResult) : List Resource :=
  setupConstructions ++ trace.flatMap iterConstructions

/-! ## Helper lemmas -/

/-- The drain reports a close exactly when the batch contains one. -/
lemma drainEvents_closed_iff (batch : List SdlEvent) :
    (drainEvents batch).closed = true ↔ SdlEvent.windowClose ∈ batch := by
  induction batch with
  | nil => simp [drainEvents]
  | cons e rest ih =>
    cases e with
    | windowClose => simp [drainEvents]
    | other ig => simp [drainEvents, ih]

/-- A batch without a close event leaves the loop running. -/
lemma drainEvents_closed_false {batch : List SdlEvent}
    (h : SdlEvent.windowClose ∉ batch) : (drainEvents batch).closed = false := by
  cases hc : (drainEvents batch).closed with
  | false => rfl
  | true => exact absurd ((drainEvents_closed_iff batch).mp hc) h

/-- Unfolding `runLoop` at positive fuel. -/
lemma runLoop_succ (batches : Nat → List SdlEvent) (avail : Nat → Bool)
    (fuel i : Nat) :
    runLoop batches avail (fuel + 1) i =
      match step (batches i) (avail i) with
      | StepResult.closed => [StepResult.closed]
      | StepResult.fatalAcquire => [StepResult.fatalAcquire]
      | StepResult.rendered cb =>
          StepResult.rendered cb :: runLoop batches avail fuel (i + 1) := rfl

/-- The only command buffer a step ever submits is `frameCommands`. -/
lemma step_eq_rendered {batch : List SdlEvent} {a : Bool} {cb : CommandBuffer}
    (h : step batch a = StepResult.rendered cb) : cb = frameCommands := by
  unfold step at h
  split at h
  · exact StepResult.noConfusion h
  · split at h
    · injection h with h'
      exact h'.symm
    · exact StepResult.noConfusion h

/-- Every rendering entry of a loop trace carries `frameCommands`. -/
lemma mem_runLoop_rendered {batches : Nat → List SdlEvent} {avail : Nat → Bool}
    {cb : CommandBuffer} :
    ∀ {fuel i : Nat},
      StepResult.rendered cb ∈ runLoop batches avail fuel i →
      cb = frameCommands := by
  intro fuel
  induction fuel with
  | zero =>
    intro i h
    simp [runLoop] at h
  | succ n ih =>
    intro i h
    rw [runLoop_succ] at h
    cases hs : step (batches i) (avail i) with
    | closed => rw [hs] at h; simp at h
    | fatalAcquire => rw [hs] at h; simp at h
    | rendered cb' =>
      rw [hs] at h
      rcases List.mem_cons.mp h with h | h
      · injection h with h'
        exact h'.trans (step_eq_rendered hs)
      · exact ih h

/-- Per-iteration constructions are only the frame and the command encoder. -/
lemma iterConstructions_mem {r : StepResult} {x : Resource}
    (h : x ∈ iterConstructions r) :
    x = Resource.frame ∨ x = Resource.commandEncoder := by
  cases r with
  | closed => simp [iterConstructions] at h
  | fatalAcquire => simp [iterConstructions] at h
  | rendered cb =>
    simp [iterConstructions] at h
    tauto

/-- Resources other than the frame and the command encoder never occur in the
per-iteration construction stream. -/
lemma flatMap_iterConstructions_count_zero (trace : List StepResult)
    {y : Resource} (hy : ¬(y = Resource.frame ∨ y = Resource.commandEncoder)) :
    (trace.flatMap iterConstructions).count y = 0 := by
  refine List.count_eq_zero.mpr ?_
  intro hmem
  rcases List.mem_flatMap.mp hmem with ⟨r, _, hr⟩
  exact hy (iterConstructions_mem hr)

/-- A concrete execution used by witnesses: one iteration, no pending events,
frame available — it renders and submits `frameCommands`. -/
lemma runLoop_singleRender :
    runLoop (fun _ => ([] : List SdlEvent)) (fun _ => true) 1 0 =
      [StepResult.rendered frameCommands] := by
  rw [runLoop_succ]
  rfl

/-- Membership form of `runLoop_singleRender`. -/
lemma mem_runLoop_singleRender :
    StepResult.rendered frameCommands ∈
      runLoop (fun _ => ([] : List SdlEvent)) (fun _ => true) 1 0 := by
  rw [runLoop_singleRender]
  exact List.mem_singleton.mpr rfl

/-! ## Claim theorems -/

/-- Claim C1 (counterexample to the original wording): the draw call recorded
in pass A of the submitted command buffer of a concrete loop iteration is
`RenderPass::draw(0..3, 0..1)` — a non-indexed draw — and pass A contains no
indexed draw call at all, so the submitted draw is not "an indexed draw". -/
theorem c1_counterexample :
    StepResult.rendered frameCommands ∈ runLoop (fun _ => []) (fun _ => true) 1 0 ∧
    frameCommands.passes.head? = some passA ∧
    passA.cmds.filter PassCmd.isDrawCall = [PassCmd.draw 0 3 0 1] ∧
    passA.cmds.countP PassCmd.isIndexedDraw = 0 :=
  ⟨mem_runLoop_singleRender, rfl, rfl, rfl⟩

/-- Claim C1 (amended): for every iteration of the frame loop, the draw call
recorded in pass A of the submitted command buffer is the non-indexed draw
`draw(0..3, 0..1)` — exactly 3 vertices and 1 instance — regardless of loop
iteration count, and pass A records no indexed draw. -/
theorem c1_draw_three_vertices_one_instance (batches : Nat → List SdlEvent)
    (avail : Nat → Bool) (fuel i : Nat) (cb : CommandBuffer)
    (h : StepResult.rendered cb ∈ runLoop batches avail fuel i) :
    cb.passes.head? = some passA ∧
    passA.cmds.filter PassCmd.isDrawCall = [PassCmd.draw 0 3 0 1] ∧
    passA.cmds.countP PassCmd.isIndexedDraw = 0 := by
  have hc := mem_runLoop_rendered h
  subst hc
  exact ⟨rfl, rfl, rfl⟩

/-- Witness for C1: the amended theorem applied to the submitted buffer of a
concrete one-iteration execution with no pending events. -/
theorem c1_witness :
    frameCommands.passes.head? = some passA ∧
    passA.cmds.filter PassCmd.isDrawCall = [PassCmd.draw 0 3 0 1] ∧
    passA.cmds.countP PassCmd.isIndexedDraw = 0 :=
  c1_draw_three_vertices_one_instance (fun _ => []) (fun _ => true) 1 0
    frameCommands mem_runLoop_singleRender

/-- Claim C2: if a window-close event occurs anywhere in the batch drained at
an iteration, that iteration ends the loop (`break 'main`): the remaining
trace is exactly the terminal `closed` entry — regardless of how much fuel
remains — so no frame is acquired and no command buffer is submitted at or
after that iteration. -/
theorem c2_close_event_terminates_loop (batches : Nat → List SdlEvent)
    (avail : Nat → Bool) (fuel i : Nat)
    (h : SdlEvent.windowClose ∈ batches i) :
    runLoop batches avail (fuel + 1) i = [StepResult.closed] ∧
    (runLoop batches avail (fuel + 1) i).countP StepResult.acquiresFrame = 0 ∧
    (runLoop batches avail (fuel + 1) i).flatMap StepResult.submissions = [] := by
  have hc : (drainEvents (batches i)).closed = true :=
    (drainEvents_closed_iff (batches i)).mpr h
  have hs : step (batches i) (avail i) = StepResult.closed := by
    simp [step, hc]
  have htrace : runLoop batches avail (fuel + 1) i = [StepResult.closed] := by
    rw [runLoop_succ, hs]
  refine ⟨htrace, ?_, ?_⟩ <;> rw [htrace] <;> rfl

/-- Witness for C2: a close event as the only queued event terminates the
loop immediately with zero acquisitions and zero submissions. -/
theorem c2_witness :
    runLoop (fun _ => [SdlEvent.windowClose]) (fun _ => true) (4 + 1) 0 =
      [StepResult.closed] ∧
    (runLoop (fun _ => [SdlEvent.windowClose]) (fun _ => true) (4 + 1) 0).countP
      StepResult.acquiresFrame = 0 ∧
    (runLoop (fun _ => [SdlEvent.windowClose]) (fun _ => true) (4 + 1) 0).flatMap
      StepResult.submissions = [] :=
  c2_close_event_terminates_loop (fun _ => [SdlEvent.windowClose])
    (fun _ => true) 4 0 (by decide)

/-- Claim C4: for every sequence of batches containing no window-close event
(and frame acquisition succeeding, as the spec's acquisition blocks until an
image is available), the loop stays running: the trace has one entry per
iteration of fuel and every entry is a rendering iteration that acquires a
frame and submits `frameCommands`. -/
theorem c4_no_close_keeps_running (batches : Nat → List SdlEvent)
    (avail : Nat → Bool)
    (hb : ∀ i, SdlEvent.windowClose ∉ batches i)
    (ha : ∀ i, avail i = true) (fuel start : Nat) :
    (runLoop batches avail fuel start).length = fuel ∧
    ∀ r ∈ runLoop batches avail fuel start,
      r = StepResult.rendered frameCommands := by
  induction fuel generalizing start with
  | zero => simp [runLoop]
  | succ n ih =>
    have hs : step (batches start) (avail start) =
        StepResult.rendered frameCommands := by
      simp [step, drainEvents_closed_false (hb start), ha start]
    rw [runLoop_succ, hs]
    show (StepResult.rendered frameCommands ::
        runLoop batches avail n (start + 1)).length = n + 1 ∧ _
    obtain ⟨ihl, ihm⟩ := ih (start + 1)
    refine ⟨by simp [ihl], ?_⟩
    intro r hr
    rcases List.mem_cons.mp hr with h | h
    · exact h
    · exact ihm r h

/-- Witness for C4: starting with only non-close events pending, a
three-iteration run produces three rendering iterations. -/
theorem c4_witness :
    (runLoop (fun _ => [SdlEvent.other true]) (fun _ => true) 3 0).length = 3 ∧
    ∀ r ∈ runLoop (fun _ => [SdlEvent.other true]) (fun _ => true) 3 0,
      r = StepResult.rendered frameCommands :=
  c4_no_close_keeps_running (fun _ => [SdlEvent.other true]) (fun _ => true)
    (by intro j; show SdlEvent.windowClose ∉ [SdlEvent.other true]; decide)
    (by intro j; rfl) 3 0

/-- Claim C5: over any whole execution, the render pipeline, the vertex and
index buffers and the two shader modules are each constructed exactly once
(during startup, before the loop — `processConstructions` lists the startup
constructions first), and every per-iteration construction is only the
acquired frame or the command encoder. -/
theorem c5_resources_constructed_once (batches : Nat → List SdlEvent)
    (avail : Nat → Bool) (fuel i : Nat) :
    (processConstructions (runLoop batches avail fuel i)).count
      Resource.renderPipeline = 1 ∧
    (processConstructions (runLoop batches avail fuel i)).count
      Resource.vertexBuffer = 1 ∧
    (processConstructions (runLoop batches avail fuel i)).count
      Resource.indexBuffer = 1 ∧
    (processConstructions (runLoop batches avail fuel i)).count
      Resource.vertShaderModule = 1 ∧
    (processConstructions (runLoop batches avail fuel i)).count
      Resource.fragShaderModule = 1 ∧
    ∀ r ∈ runLoop batches avail fuel i, ∀ x ∈ iterConstructions r,
      x = Resource.frame ∨ x = Resource.commandEncoder := by
  have hcount : ∀ y : Resource,
      ¬(y = Resource.frame ∨ y = Resource.commandEncoder) →
      (processConstructions (runLoop batches avail fuel i)).count y =
        setupConstructions.count y := by
    intro y hy
    unfold processConstructions
    rw [List.count_append,
      flatMap_iterConstructions_count_zero (runLoop batches avail fuel i) hy]
    exact Nat.add_zero _
  refine ⟨?_, ?_, ?_, ?_, ?_, ?_⟩
  · rw [hcount Resource.renderPipeline (by decide)]; decide
  · rw [hcount Resource.vertexBuffer (by decide)]; decide
  · rw [hcount Resource.indexBuffer (by decide)]; decide
  · rw [hcount Resource.vertShaderModule (by decide)]; decide
  · rw [hcount Resource.fragShaderModule (by decide)]; decide
  · intro r _ x hx
    exact iterConstructions_mem hx

/-- Witness for C5: the once-per-process counts on a concrete two-iteration
execution. -/
theorem c5_witness :
    (processConstructions (runLoop (fun _ => []) (fun _ => true) 2 0)).count
      Resource.renderPipeline = 1 ∧
    (processConstructions (runLoop (fun _ => []) (fun _ => true) 2 0)).count
      Resource.vertexBuffer = 1 :=
  ⟨(c5_resources_constructed_once (fun _ => []) (fun _ => true) 2 0).1,
   (c5_resources_constructed_once (fun _ => []) (fun _ => true) 2 0).2.1⟩

/-- Claim C6: every rendering iteration records exactly the two passes — pass
A clearing the frame view to the fixed background color, binding the fixed
pipeline and the vertex/index buffers and drawing, then pass B loading (not
clearing) the same frame view and compositing the imgui draw data — and
submits exactly one command buffer. -/
theorem c6_two_passes_one_submission (batches : Nat → List SdlEvent)
    (avail : Nat → Bool) (fuel i : Nat) (cb : CommandBuffer)
    (h : StepResult.rendered cb ∈ runLoop batches avail fuel i) :
    cb.passes = [passA, passB] ∧
    passA.attachment = Attachment.frameOutputView ∧
    passA.loadOp = PassLoadOp.clear clearColor ∧
    passA.cmds = [PassCmd.setPipeline, PassCmd.setVertexBuffer 0,
      PassCmd.setIndexBuffer, PassCmd.draw 0 3 0 1] ∧
    passB.attachment = Attachment.frameOutputView ∧
    passB.loadOp = PassLoadOp.load ∧
    passB.cmds = [PassCmd.renderImgui] ∧
    (StepResult.rendered cb).submissions = [cb] := by
  have hc := mem_runLoop_rendered h
  subst hc
  exact ⟨rfl, rfl, rfl, rfl, rfl, rfl, rfl, rfl⟩

/-- Witness for C6: the two-pass structure of the buffer submitted by a
concrete one-iteration execution. -/
theorem c6_witness :
    frameCommands.passes = [passA, passB] ∧
    passA.attachment = Attachment.frameOutputView ∧
    passA.loadOp = PassLoadOp.clear clearColor ∧
    passA.cmds = [PassCmd.setPipeline, PassCmd.setVertexBuffer 0,
      PassCmd.setIndexBuffer, PassCmd.draw 0 3 0 1] ∧
    passB.attachment = Attachment.frameOutputView ∧
    passB.loadOp = PassLoadOp.load ∧
    passB.cmds = [PassCmd.renderImgui] ∧
    (StepResult.rendered frameCommands).submissions = [frameCommands] :=
  c6_two_passes_one_submission (fun _ => []) (fun _ => true) 1 0 frameCommands
    mem_runLoop_singleRender

/-- Claim C7: if the batch drained at an iteration has no close event and
frame acquisition fails there, the `expect` panics: the remaining trace is
exactly the terminal `fatalAcquire` entry, with no retry and no further
iteration, regardless of how much fuel remains. -/
theorem c7_acquire_failure_is_fatal (batches : Nat → List SdlEvent)
    (avail : Nat → Bool) (fuel i : Nat)
    (hnc : SdlEvent.windowClose ∉ batches i) (hfa : avail i = false) :
    runLoop batches avail (fuel + 1) i = [StepResult.fatalAcquire] := by
  have hs : step (batches i) (avail i) = StepResult.fatalAcquire := by
    simp [step, drainEvents_closed_false hnc, hfa]
  rw [runLoop_succ, hs]

/-- Witness for C7: acquisition failing on the first iteration of a concrete
run terminates the trace at once. -/
theorem c7_witness :
    runLoop (fun _ => []) (fun _ => false) (3 + 1) 0 =
      [StepResult.fatalAcquire] :=
  c7_acquire_failure_is_fatal (fun _ => []) (fun _ => false) 3 0
    (by decide) rfl

/-- Claim C8: the geometry uploaded at startup is exactly the three vertices
with 2-float positions and 3-float colors and the three 16-bit indices
0, 1, 2; the buffers carry only the VERTEX resp. INDEX usage flag, and the
command buffer submitted by any iteration contains no buffer write. -/
theorem c8_geometry_upload (batches : Nat → List SdlEvent)
    (avail : Nat → Bool) (fuel i : Nat) (cb : CommandBuffer)
    (h : StepResult.rendered cb ∈ runLoop batches avail fuel i) :
    vertexData.length = 3 ∧
    vertexData =
      [ { pos := (0, 0), color := (1, 0, 0) }
      , { pos := (1, 0), color := (0, 1, 0) }
      , { pos := (0, 1), color := (0, 0, 1) } ] ∧
    indexData = [0, 1, 2] ∧
    (∀ n ∈ indexData, n < 2 ^ 16) ∧
    pipelineIndexFormat = IndexFmt.uint16 ∧
    vertexBufferUsage = [BufferUsageFlag.vertex] ∧
    indexBufferUsage = [BufferUsageFlag.index] ∧
    cb.bufferWrites = [] := by
  have hc := mem_runLoop_rendered h
  subst hc
  exact ⟨rfl, rfl, rfl, by decide, rfl, rfl, rfl, rfl⟩

/-- Witness for C8: the geometry facts at a concrete one-iteration
execution. -/
theorem c8_witness :
    vertexData.length = 3 ∧
    vertexData =
      [ { pos := (0, 0), color := (1, 0, 0) }
      , { pos := (1, 0), color := (0, 1, 0) }
      , { pos := (0, 1), color := (0, 0, 1) } ] ∧
    indexData = [0, 1, 2] ∧
    (∀ n ∈ indexData, n < 2 ^ 16) ∧
    pipelineIndexFormat = IndexFmt.uint16 ∧
    vertexBufferUsage = [BufferUsageFlag.vertex] ∧
    indexBufferUsage = [BufferUsageFlag.index] ∧
    frameCommands.bufferWrites = [] :=
  c8_geometry_upload (fun _ => []) (fun _ => true) 1 0 frameCommands
    mem_runLoop_singleRender

/-- Claim C9: the configuration is fixed at compile time — window 640 by 480
titled "wgpu", swap chain and pipeline color format Bgra8UnormSrgb with FIFO
present mode, clear color (0.5, 0.5, 0.5, 1.0) — and the buffer submitted by
every rendering iteration clears with this same color in its first pass. -/
theorem c9_fixed_configuration (batches : Nat → List SdlEvent)
    (avail : Nat → Bool) (fuel i : Nat) (cb : CommandBuffer)
    (h : StepResult.rendered cb ∈ runLoop batches avail fuel i) :
    WIDTH = 640 ∧ HEIGHT = 480 ∧ windowTitle = "wgpu" ∧
    swapChainConfig =
      { format := TextureFmt.bgra8UnormSrgb, width := 640, height := 480
        presentMode := PresentationMode.fifo } ∧
    pipelineColorFormat = TextureFmt.bgra8UnormSrgb ∧
    clearColor = { r := 1/2, g := 1/2, b := 1/2, a := 1 } ∧
    cb.passes.map RenderPass.loadOp =
      [PassLoadOp.clear clearColor, PassLoadOp.load] := by
  have hc := mem_runLoop_rendered h
  subst hc
  exact ⟨rfl, rfl, rfl, rfl, rfl, rfl, rfl⟩

/-- Witness for C9: the fixed configuration at a concrete one-iteration
execution. -/
theorem c9_witness :
    WIDTH = 640 ∧ HEIGHT = 480 ∧ windowTitle = "wgpu" ∧
    swapChainConfig =
      { format := TextureFmt.bgra8UnormSrgb, width := 640, height := 480
        presentMode := PresentationMode.fifo } ∧
    pipelineColorFormat = TextureFmt.bgra8UnormSrgb ∧
    clearColor = { r := 1/2, g := 1/2, b := 1/2, a := 1 } ∧
    frameCommands.passes.map RenderPass.loadOp =
      [PassLoadOp.clear clearColor, PassLoadOp.load] :=
  c9_fixed_configuration (fun _ => []) (fun _ => true) 1 0 frameCommands
    mem_runLoop_singleRender

/-- Claim C10: when a close event sits in the middle of a drained batch, the
drain stops right there: only the events before the close plus the close
itself are examined, and the events after it are neither examined nor
forwarded to the UI handler — the result does not depend on them at all. -/
theorem c10_drain_stops_at_close (pre post : List SdlEvent)
    (h : SdlEvent.windowClose ∉ pre) :
    drainEvents (pre ++ SdlEvent.windowClose :: post) =
      { closed := true
        forwarded := (drainEvents pre).forwarded
        examined := pre.length + 1 } := by
  induction pre with
  | nil => simp [drainEvents]
  | cons e rest ih =>
    cases e with
    | windowClose => exact absurd (List.mem_cons_self _ _) h
    | other ig =>
      have h' : SdlEvent.windowClose ∉ rest := fun hm =>
        h (List.mem_cons_of_mem _ hm)
      simp [drainEvents, ih h']

/-- Witness for C10: a concrete batch with two events after the close; the
drain examines three events and forwards only the non-ignored event before
the close. -/
theorem c10_witness :
    drainEvents ([SdlEvent.other false, SdlEvent.other true] ++
        SdlEvent.windowClose :: [SdlEvent.other false, SdlEvent.windowClose]) =
      { closed := true
        forwarded := (drainEvents [SdlEvent.other false, SdlEvent.other true]).forwarded
        examined := [SdlEvent.other false, SdlEvent.other true].length + 1 } :=
  c10_drain_stops_at_close [SdlEvent.other false, SdlEvent.other true]
    [SdlEvent.other false, SdlEvent.windowClose] (by decide)

/-- Claim C3 (the code contradicts it): the vertex buffer layout is indeed
interleaved position-then-color, but its stride is
`size_of::<[f32; 2]>() = 8` — the size of the position attribute alone — not
the 20-byte size of one full vertex; the Float3 color attribute at offset 8
even extends past the declared stride. -/
theorem c3_stride_is_position_size_not_vertex_size :
    vertexBufferLayout.stride = 8 ∧
    sizeOfVertex = 20 ∧
    vertexBufferLayout.stride ≠ sizeOfVertex ∧
    vertexBufferLayout.attributes.map VertexAttribute.format =
      [VertexFormat.float2, VertexFormat.float3] ∧
    (∃ a ∈ vertexBufferLayout.attributes,
      vertexBufferLayout.stride < a.offset + a.format.byteSize) := by
  decide

end WgpuTest
